import Mathlib

/-!
Shallow embedding of the service graph processor package
(pkg/traces/servicegraphprocessor) of the agent repository, together with a
model of the correlation engine it constructs. The factory file is embedded
from the source; the engine itself (store, correlator, sweeper, emitter) is
not part of the shown sources and is modelled from the specification.
-/

namespace ServiceGraph

/-- Durations are modelled as integer nanoseconds, following Go time.Duration;
timeSecond is the constant time.Second. -/
def timeSecond : Int := 1000000000

/-- TypeStr is the unique identifier for the Prometheus service graph exporter. -/
def TypeStr : String := "service_graphs"

/-- DefaultWait is the default value to wait for an edge to be completed,
time.Second * 10 in the source. -/
def DefaultWait : Int := timeSecond * 10

/-- DefaultMaxItems is the default amount of edges that will be stored in the
store map. -/
def DefaultMaxItems : Int := 10000

/-- DefaultWorkers is the default amount of workers that will be used to
process the edges. -/
def DefaultWorkers : Int := 10

/-- Success code lists from configuration, one for HTTP and one for gRPC,
embedding the successCodes struct of the source (fields http and grpc of Go
type list of int64). -/
structure successCodes where
  http : List Int
  grpc : List Int
deriving DecidableEq, Repr

/-- Config holds the configuration for the Prometheus service graph processor,
embedding the Config struct of the source: Wait is a duration in nanoseconds,
MaxItems and Workers are machine integers, SuccessCodes is a nullable
pointer. -/
structure Config where
  Wait : Int
  MaxItems : Int
  Workers : Int
  SuccessCodes : Option successCodes
deriving DecidableEq, Repr

/-- Model of a component.Config interface value handed to the factory: either
a pointer to the Config of this package or a foreign configuration type. -/
inductive ComponentConfig
  | sg (c : Config)
  | other
deriving DecidableEq, Repr

/-- Projection of the dynamic configuration value to the Config of this
package, when it has that type. -/
def configOf : ComponentConfig → Option Config
  | ComponentConfig.sg c => some c
  | ComponentConfig.other => none

/-- Embedding of createDefaultConfig: the source returns the zero-valued
Config literal, so every field carries the Go zero value. -/
def createDefaultConfig : ComponentConfig :=
  ComponentConfig.sg { Wait := 0, MaxItems := 0, Workers := 0, SuccessCodes := none }

/-- Opaque-by-construction stand-in for the context.Context argument, which
the source ignores. -/
structure Context where
  id : Nat
deriving DecidableEq, Repr

/-- Opaque-by-construction stand-in for the processor.CreateSettings argument,
which the source ignores. -/
structure CreateSettings where
  id : Nat
deriving DecidableEq, Repr

/-- Opaque-by-construction stand-in for the consumer.Traces next consumer. -/
structure ConsumerTraces where
  id : Nat
deriving DecidableEq, Repr

/-- Modelled from the spec: newProcessor is missing from the shown sources;
per the system overview it wires the next consumer and the configuration into
the correlation engine, so it is modelled as packaging both. -/
structure TracesProcessor where
  nextConsumer : ConsumerTraces
  cfg : Config
deriving DecidableEq, Repr

/-- Modelled from the spec: constructor for TracesProcessor standing in for
the newProcessor call of the source. -/
def newProcessor (next : ConsumerTraces) (c : Config) : TracesProcessor :=
  { nextConsumer := next, cfg := c }

/-- Result of a Go call that may panic: ok carries the returned value together
with the returned error (none is a nil error); fatal marks a runtime panic
such as a failed type assertion. -/
inductive GoResult (A : Type)
  | ok (val : A) (err : Option String)
  | fatal
deriving DecidableEq, Repr

/-- Embedding of createTracesProcessor: the context and settings arguments are
ignored, the unchecked type assertion cfg.(*Config) is performed, and the
processor is returned with a nil error. A foreign configuration type makes
the assertion panic. -/
def createTracesProcessor (ctx : Context) (settings : CreateSettings)
    (cfg : ComponentConfig) (nextConsumer : ConsumerTraces) :
    GoResult TracesProcessor :=
  match cfg with
  | ComponentConfig.sg c => GoResult.ok (newProcessor nextConsumer c) none
  | ComponentConfig.other => GoResult.fatal

/-- Model of the collector processor.Factory record produced by
processor.NewFactory: the component type string, the default configuration
constructor and the traces constructor with its stability level (0 stands for
component.StabilityLevelUndefined). -/
structure Factory where
  cfgType : String
  createDefaultConfigFunc : Unit → ComponentConfig
  createTracesFunc :
    Context → CreateSettings → ComponentConfig → ConsumerTraces → GoResult TracesProcessor
  stabilityTraces : Nat

/-- Model of processor.NewFactory from the collector library: it records its
arguments in the factory it returns. -/
def processorNewFactory (t : String) (cdc : Unit → ComponentConfig)
    (ctp : Context → CreateSettings → ComponentConfig → ConsumerTraces → GoResult TracesProcessor)
    (stability : Nat) : Factory :=
  { cfgType := t, createDefaultConfigFunc := cdc, createTracesFunc := ctp,
    stabilityTraces := stability }

/-- Embedding of NewFactory: registers TypeStr, createDefaultConfig and
createTracesProcessor, with undefined stability for traces. -/
def NewFactory (u : Unit) : Factory :=
  processorNewFactory TypeStr (fun _ => createDefaultConfig) createTracesProcessor 0

/-- Modelled from the spec: the engine sources are missing; the span role is
the closed client/server variant of the design notes. -/
inductive Role
  | client
  | server
deriving DecidableEq, Repr

/-- Modelled from the spec: the protocol hint of a span, a closed variant of
HTTP, gRPC and other. -/
inductive Protocol
  | http
  | grpc
  | other
deriving DecidableEq, Repr

/-- Modelled from the spec: the correlation key is the composite of trace
identifier and span identifier naming one logical call edge. -/
structure CorrelationKey where
  traceID : String
  spanID : String
deriving DecidableEq, Repr

/-- Modelled from the spec: the fields of an incoming span the correlator
consumes: derived key, role, service name, start timestamp, optional status
code and protocol hint. -/
structure Span where
  key : CorrelationKey
  role : Role
  service : String
  startTime : Int
  statusCode : Option Int
  protocol : Protocol
deriving DecidableEq, Repr

/-- Modelled from the spec: the mutable accumulator for one in-progress edge,
with each side populated independently and an expiry deadline set at creation
from the arrival time plus the configured wait. -/
structure HalfEdge where
  key : CorrelationKey
  clientService : Option String
  serverService : Option String
  clientLatencyStart : Option Int
  serverLatencyStart : Option Int
  statusCode : Option Int
  protocol : Protocol
  expiresAt : Int
deriving DecidableEq, Repr

/-- Modelled from the spec: a half edge is complete once both the client and
the server service are set. -/
def HalfEdge.complete (h : HalfEdge) : Bool :=
  h.clientService.isSome && h.serverService.isSome

/-- Modelled from the spec: the immutable snapshot handed to the metrics
emitter, with the latency computed as the server/client timestamp delta when
both sides carry one. -/
structure CompletedEdge where
  key : CorrelationKey
  clientService : Option String
  serverService : Option String
  statusCode : Option Int
  protocol : Protocol
  latency : Option Int
deriving DecidableEq, Repr

/-- Modelled from the spec: snapshot conversion from a half edge to the
completed edge handed to the emitter. -/
def toCompletedEdge (h : HalfEdge) : CompletedEdge :=
  { key := h.key, clientService := h.clientService, serverService := h.serverService,
    statusCode := h.statusCode, protocol := h.protocol,
    latency :=
      match h.clientLatencyStart, h.serverLatencyStart with
      | some c, some s => some (s - c)
      | _, _ => none }

/-- Modelled from the spec: why an incomplete edge left the store, either a
capacity eviction by the governor or a timeout eviction by the sweeper. -/
inductive EvictReason
  | capacity
  | timeout
deriving DecidableEq, Repr

/-- Modelled from the spec: one observation handed to the metrics emitter,
either a completed edge or an incomplete half edge with its eviction
reason. -/
inductive Emission
  | completed (e : CompletedEdge)
  | incomplete (h : HalfEdge) (r : EvictReason)
deriving DecidableEq, Repr

/-- Modelled from the spec: merging one side of a span into a half edge; a
duplicate arrival of the same side overwrites that side, the status code and
protocol are populated from whichever side carries them. -/
def mergeSide (h : HalfEdge) (s : Span) : HalfEdge :=
  match s.role with
  | Role.client =>
    { h with
      clientService := some s.service,
      clientLatencyStart := some s.startTime,
      statusCode :=
        match s.statusCode with
        | some c => some c
        | none => h.statusCode,
      protocol := if s.protocol = Protocol.other then h.protocol else s.protocol }
  | Role.server =>
    { h with
      serverService := some s.service,
      serverLatencyStart := some s.startTime,
      statusCode :=
        match s.statusCode with
        | some c => some c
        | none => h.statusCode,
      protocol := if s.protocol = Protocol.other then h.protocol else s.protocol }

/-- Modelled from the spec: a fresh half edge for a first arrival, expiring at
the arrival time plus the configured wait, with the arriving side merged
in. -/
def newHalfEdge (cfg : Config) (now : Int) (s : Span) : HalfEdge :=
  mergeSide
    { key := s.key, clientService := none, serverService := none,
      clientLatencyStart := none, serverLatencyStart := none,
      statusCode := none, protocol := Protocol.other, expiresAt := now + cfg.Wait }
    s

/-- Modelled from the spec: the edge store is a key to half-edge map, kept
here as an association list in insertion order (oldest first). -/
def EdgeStore : Type := List (CorrelationKey × HalfEdge)

/-- Modelled from the spec: lookup of the resident half edge for a key. -/
def lookupEdge : List (CorrelationKey × HalfEdge) → CorrelationKey → Option HalfEdge
  | [], _ => none
  | (k2, h) :: rest, k => if k2 = k then some h else lookupEdge rest k

/-- Modelled from the spec: removal of the resident entry for a key. -/
def removeEdge :
    List (CorrelationKey × HalfEdge) → CorrelationKey → List (CorrelationKey × HalfEdge)
  | [], _ => []
  | (k2, h) :: rest, k => if k2 = k then rest else (k2, h) :: removeEdge rest k

/-- Modelled from the spec: in-place replacement of the half edge stored for a
key. -/
def updateEdge :
    List (CorrelationKey × HalfEdge) → CorrelationKey → HalfEdge →
    List (CorrelationKey × HalfEdge)
  | [], _, _ => []
  | (k2, h2) :: rest, k, h => if k2 = k then (k2, h) :: rest else (k2, h2) :: updateEdge rest k h

/-- Modelled from the spec: the entry the governor evicts on overflow, the one
with the earliest expiry, ties broken by insertion order (first in list
order). -/
def oldestEntry :
    List (CorrelationKey × HalfEdge) → Option (CorrelationKey × HalfEdge)
  | [] => none
  | e :: rest =>
    match oldestEntry rest with
    | none => some e
    | some e2 => if e2.2.expiresAt < e.2.expiresAt then some e2 else some e

/-- Modelled from the spec: the engine state visible to the claims, the edge
store together with the sequence of emissions handed to the metrics
emitter. -/
structure EngineState where
  store : List (CorrelationKey × HalfEdge)
  emissions : List Emission
deriving DecidableEq, Repr

/-- Modelled from the spec: the engine starts with an empty store and no
emissions. -/
def emptyState : EngineState := { store := [], emissions := [] }

/-- Modelled from the spec: onSpan, the per-span entry point. It looks the key
up; on a hit it merges the arriving side and, when the merge completes the
edge, removes it and emits the completed edge; on a miss it runs the capacity
governor (evict the oldest entry as incomplete when the store is full) and
inserts a fresh half edge. -/
def onSpan (cfg : Config) (now : Int) (st : EngineState) (s : Span) : EngineState :=
  match lookupEdge st.store s.key with
  | some h0 =>
    let h1 := mergeSide h0 s
    if h1.complete then
      { store := removeEdge st.store s.key,
        emissions := st.emissions ++ [Emission.completed (toCompletedEdge h1)] }
    else
      { store := updateEdge st.store s.key h1, emissions := st.emissions }
  | none =>
    let h1 := newHalfEdge cfg now s
    if cfg.MaxItems ≤ (st.store.length : Int) then
      match oldestEntry st.store with
      | some old =>
        { store := removeEdge st.store old.1 ++ [(s.key, h1)],
          emissions := st.emissions ++ [Emission.incomplete old.2 EvictReason.capacity] }
      | none =>
        { store := [(s.key, h1)], emissions := st.emissions }
    else
      { store := st.store ++ [(s.key, h1)], emissions := st.emissions }

/-- Modelled from the spec: one sweeper pass at the given time evicts every
resident half edge whose expiry has passed and emits each one exactly once as
an incomplete edge tagged as timed out. -/
def sweep (now : Int) (st : EngineState) : EngineState :=
  { store := st.store.filter (fun e => decide (now ≤ e.2.expiresAt)),
    emissions := st.emissions ++
      (st.store.filter (fun e => decide (e.2.expiresAt < now))).map
        (fun e => Emission.incomplete e.2 EvictReason.timeout) }

/-- Modelled from the spec: folding a timed sequence of spans through
onSpan. -/
def processAll (cfg : Config) (st : EngineState) : List (Int × Span) → EngineState
  | [] => st
  | (t, s) :: rest => processAll cfg (onSpan cfg t st s) rest

/-- Modelled from the spec: recogniser for a completed-edge emission carrying
the given key. -/
def isCompletedFor (k : CorrelationKey) : Emission → Bool
  | Emission.completed e => k = e.key
  | Emission.incomplete _ _ => false

/-- Modelled from the spec: the number of completed-edge emissions for a
key. -/
def completedCountFor (k : CorrelationKey) (ems : List Emission) : Nat :=
  (ems.filter (isCompletedFor k)).length

/-- Modelled from the spec: recogniser for a capacity eviction emission. -/
def isCapacityEviction : Emission → Bool
  | Emission.incomplete _ EvictReason.capacity => true
  | _ => false

/-- Modelled from the spec: the number of capacity eviction emissions. -/
def evictionCount (ems : List Emission) : Nat :=
  (ems.filter isCapacityEviction).length

/-- Modelled from the spec: recogniser for a timeout eviction emission. -/
def isTimeoutEviction : Emission → Bool
  | Emission.incomplete _ EvictReason.timeout => true
  | _ => false

/-- Modelled from the spec: the number of timeout eviction emissions. -/
def timeoutCount (ems : List Emission) : Nat :=
  (ems.filter isTimeoutEviction).length

/-- Modelled from the spec: a metric observation produced for a completed
edge: the edge identity and its success classification. -/
structure Observation where
  client : Option String
  server : Option String
  protocol : Protocol
  success : Bool
deriving DecidableEq, Repr

/-- Modelled from the spec: success classification consults the configured
status code sets: an HTTP status is a success iff it is in the configured
HTTP set, a gRPC status iff it is in the configured gRPC set; codes outside
any configured set are errors. -/
def classifySuccess (codes : successCodes) (p : Protocol) (status : Int) : Bool :=
  match p with
  | Protocol.http => codes.http.contains status
  | Protocol.grpc => codes.grpc.contains status
  | Protocol.other => false

/-- Modelled from the spec: the metrics emitter turns a completed edge into a
request observation whose success label comes from classifySuccess; an edge
with no status code is classified as error. -/
def emitObservation (codes : successCodes) (e : CompletedEdge) : Observation :=
  { client := e.clientService, server := e.serverService, protocol := e.protocol,
    success :=
      match e.statusCode with
      | none => false
      | some st => classifySuccess codes e.protocol st }

/-- Modelled from the spec: the emitter of a built processor uses the success
code sets supplied in its configuration, constructed once; an absent
success_codes block leaves both sets empty. -/
def processorEmit (p : TracesProcessor) (e : CompletedEdge) : Observation :=
  emitObservation (p.cfg.SuccessCodes.getD { http := [], grpc := [] }) e

/-- Sample client span for concrete checks. -/
def sampleClientSpan : Span :=
  { key := { traceID := "t1", spanID := "s1" }, role := Role.client,
    service := "A", startTime := 0, statusCode := none, protocol := Protocol.http }

/-- Sample server span for concrete checks, matching the sample client
span. -/
def sampleServerSpan : Span :=
  { key := { traceID := "t1", spanID := "s1" }, role := Role.server,
    service := "B", startTime := 5000000, statusCode := some 200,
    protocol := Protocol.http }

/-- Sample span with a second, distinct key. -/
def sampleOtherSpan : Span :=
  { key := { traceID := "t2", spanID := "s2" }, role := Role.client,
    service := "C", startTime := 0, statusCode := none, protocol := Protocol.http }

/-- Sample configuration with a small capacity for concrete checks. -/
def sampleConfig : Config :=
  { Wait := 10, MaxItems := 1, Workers := 1, SuccessCodes := none }

/-- Sample completed HTTP edge with the given status code, for the concrete
classification scenario. -/
def edgeWithStatus (st : Int) : CompletedEdge :=
  { key := { traceID := "t1", spanID := "s1" }, clientService := some "A",
    serverService := some "B", statusCode := some st, protocol := Protocol.http,
    latency := some 5000000 }

/-- C5: the documented default constants of the factory equal the values the
specification states: DefaultWait is ten seconds, DefaultMaxItems is ten
thousand and DefaultWorkers is ten. -/
theorem default_constants_match_spec :
    DefaultWait = 10 * timeSecond ∧ DefaultMaxItems = 10000 ∧ DefaultWorkers = 10 := by
  refine ⟨?_, rfl, rfl⟩
  norm_num [DefaultWait, timeSecond]

/-- C6 counterexample: createDefaultConfig returns the zero-valued Config, so
the Wait, MaxItems and Workers fields of the returned configuration are all
0, none of which equals the corresponding documented default. -/
theorem createDefaultConfig_zero_counterexample :
    (configOf createDefaultConfig).map Config.Wait = some 0 ∧
    (configOf createDefaultConfig).map Config.MaxItems = some 0 ∧
    (configOf createDefaultConfig).map Config.Workers = some 0 ∧
    ¬ ((0 : Int) = DefaultWait ∨ (0 : Int) = DefaultMaxItems ∨
      (0 : Int) = DefaultWorkers) := by
  refine ⟨rfl, rfl, rfl, ?_⟩
  norm_num [DefaultWait, DefaultMaxItems, DefaultWorkers, timeSecond]

/-- C6 amended: the configuration returned by createDefaultConfig carries the
Go zero values in every field: Wait 0, MaxItems 0, Workers 0 and an absent
success_codes block. -/
theorem createDefaultConfig_zero_value :
    createDefaultConfig =
      ComponentConfig.sg { Wait := 0, MaxItems := 0, Workers := 0, SuccessCodes := none } :=
  rfl

/-- C7: for every context, settings, Config of this package and next
consumer, createTracesProcessor returns the built processor together with a
nil error; it never surfaces an error to its caller. -/
theorem createTracesProcessor_nil_error (ctx : Context) (settings : CreateSettings)
    (c : Config) (next : ConsumerTraces) :
    createTracesProcessor ctx settings (ComponentConfig.sg c) next
      = GoResult.ok (newProcessor next c) none :=
  rfl

/-- C9: the unchecked type assertion in createTracesProcessor succeeds — the
call does not panic — whenever the configuration argument has the *Config
type of this package, in particular whenever it is the value produced by
createDefaultConfig. -/
theorem createTracesProcessor_assertion_safe (ctx : Context) (settings : CreateSettings)
    (next : ConsumerTraces) (cfg : ComponentConfig)
    (h : (∃ c, cfg = ComponentConfig.sg c) ∨ cfg = createDefaultConfig) :
    ¬ createTracesProcessor ctx settings cfg next = GoResult.fatal := by
  rcases h with ⟨c, rfl⟩ | rfl
  · simp [createTracesProcessor]
  · simp [createTracesProcessor, createDefaultConfig]

/-- Witness for C9 at the configuration produced by createDefaultConfig. -/
theorem createTracesProcessor_assertion_safe_witness :
    ((∃ c, createDefaultConfig = ComponentConfig.sg c) ∨
        createDefaultConfig = createDefaultConfig) ∧
    ¬ createTracesProcessor ⟨0⟩ ⟨0⟩ createDefaultConfig ⟨0⟩ = GoResult.fatal :=
  ⟨Or.inr rfl,
    createTracesProcessor_assertion_safe ⟨0⟩ ⟨0⟩ ⟨0⟩ createDefaultConfig (Or.inr rfl)⟩

/-- C10: every factory returned by NewFactory registers the processor under
the fixed type identifier service_graphs, the value of TypeStr. -/
theorem NewFactory_registers_service_graphs (u : Unit) :
    (NewFactory u).cfgType = TypeStr ∧ (NewFactory u).cfgType = "service_graphs" :=
  ⟨rfl, rfl⟩

/-- C4: emission classifies an HTTP status as success iff it belongs to the
configured HTTP success set and a gRPC status as success iff it belongs to
the configured gRPC set; with HTTP success codes 200 and 301, a completed
HTTP edge with status 200 is counted as success and one with status 404 as
error. -/
theorem success_classification (codes : successCodes) (e : CompletedEdge) (st : Int)
    (hst : e.statusCode = some st) :
    ((e.protocol = Protocol.http →
        ((emitObservation codes e).success = true ↔ st ∈ codes.http)) ∧
      (e.protocol = Protocol.grpc →
        ((emitObservation codes e).success = true ↔ st ∈ codes.grpc))) ∧
    ((emitObservation { http := [200, 301], grpc := [] } (edgeWithStatus 200)).success
        = true ∧
      (emitObservation { http := [200, 301], grpc := [] } (edgeWithStatus 404)).success
        = false) := by
  refine ⟨⟨?_, ?_⟩, by decide, by decide⟩
  · intro hp
    simp [emitObservation, classifySuccess, hst, hp]
  · intro hp
    simp [emitObservation, classifySuccess, hst, hp]

/-- Witness for C4 at a concrete edge with status 200. -/
theorem success_classification_witness :
    (edgeWithStatus 200).statusCode = some 200 ∧
    ((((edgeWithStatus 200).protocol = Protocol.http →
        ((emitObservation { http := [200, 301], grpc := [] } (edgeWithStatus 200)).success
            = true ↔ (200 : Int) ∈ ([200, 301] : List Int))) ∧
      ((edgeWithStatus 200).protocol = Protocol.grpc →
        ((emitObservation { http := [200, 301], grpc := [] } (edgeWithStatus 200)).success
            = true ↔ (200 : Int) ∈ ([] : List Int)))) ∧
    ((emitObservation { http := [200, 301], grpc := [] } (edgeWithStatus 200)).success
        = true ∧
      (emitObservation { http := [200, 301], grpc := [] } (edgeWithStatus 404)).success
        = false)) :=
  ⟨rfl, success_classification { http := [200, 301], grpc := [] } (edgeWithStatus 200)
    200 rfl⟩

/-- C8: the success code sets used at emission time are exactly the ones
supplied in the configuration: a processor built from a Config whose
success_codes block is present classifies every completed edge with those
sets. -/
theorem success_codes_configurable (next : ConsumerTraces) (c : Config)
    (codes : successCodes) (e : CompletedEdge)
    (h : c.SuccessCodes = some codes) :
    processorEmit (newProcessor next c) e = emitObservation codes e := by
  simp [processorEmit, newProcessor, h]

/-- Witness for C8 at a concrete configuration carrying explicit success
codes. -/
theorem success_codes_configurable_witness :
    ({ Wait := 0, MaxItems := 0, Workers := 0,
        SuccessCodes := some { http := [200, 301], grpc := [0] } } : Config).SuccessCodes
      = some { http := [200, 301], grpc := [0] } ∧
    processorEmit
        (newProcessor ⟨0⟩
          { Wait := 0, MaxItems := 0, Workers := 0,
            SuccessCodes := some { http := [200, 301], grpc := [0] } })
        (edgeWithStatus 200)
      = emitObservation { http := [200, 301], grpc := [0] } (edgeWithStatus 200) :=
  ⟨rfl, success_codes_configurable ⟨0⟩
    { Wait := 0, MaxItems := 0, Workers := 0,
      SuccessCodes := some { http := [200, 301], grpc := [0] } }
    { http := [200, 301], grpc := [0] } (edgeWithStatus 200) rfl⟩

/-- Merging a side never changes the expiry deadline of a half edge. -/
theorem mergeSide_expiresAt (h : HalfEdge) (s : Span) :
    (mergeSide h s).expiresAt = h.expiresAt := by
  unfold mergeSide
  cases hs : s.role <;> simp

/-- Merging a side never changes the key of a half edge. -/
theorem mergeSide_key (h : HalfEdge) (s : Span) :
    (mergeSide h s).key = h.key := by
  unfold mergeSide
  cases hs : s.role <;> simp

/-- Processing a span on the empty engine creates exactly one half edge and
emits nothing, whatever the configured capacity. -/
theorem onSpan_empty (cfg : Config) (t : Int) (s : Span) :
    onSpan cfg t emptyState s =
      { store := [(s.key, newHalfEdge cfg t s)], emissions := [] } := by
  unfold onSpan
  simp only [emptyState, lookupEdge]
  split
  · simp [oldestEntry]
  · simp

/-- C1: two spans with equal derived keys, one in the client role and one in
the server role, arriving in either order on the empty engine, produce
exactly one completed-edge emission for that key — never zero and never
two. -/
theorem no_duplicate_edges (cfg : Config) (t1 t2 : Int) (s1 s2 : Span)
    (hk : s1.key = s2.key)
    (hr : (s1.role = Role.client ∧ s2.role = Role.server) ∨
      (s1.role = Role.server ∧ s2.role = Role.client)) :
    completedCountFor s2.key
      (onSpan cfg t2 (onSpan cfg t1 emptyState s1) s2).emissions = 1 := by
  rw [onSpan_empty]
  rcases hr with ⟨h1, h2⟩ | ⟨h1, h2⟩ <;>
    simp [onSpan, lookupEdge, newHalfEdge, mergeSide, HalfEdge.complete,
      toCompletedEdge, completedCountFor, isCompletedFor, hk, h1, h2]

/-- Witness for C1 at the concrete client/server sample pair. -/
theorem no_duplicate_edges_witness :
    (sampleClientSpan.key = sampleServerSpan.key ∧
      ((sampleClientSpan.role = Role.client ∧ sampleServerSpan.role = Role.server) ∨
        (sampleClientSpan.role = Role.server ∧ sampleServerSpan.role = Role.client))) ∧
    completedCountFor sampleServerSpan.key
      (onSpan sampleConfig 1 (onSpan sampleConfig 0 emptyState sampleClientSpan)
        sampleServerSpan).emissions = 1 :=
  ⟨⟨rfl, Or.inl ⟨rfl, rfl⟩⟩,
    no_duplicate_edges sampleConfig 0 1 sampleClientSpan sampleServerSpan rfl
      (Or.inl ⟨rfl, rfl⟩)⟩

/-- C3: a half edge created at time tCreate on the empty engine, with only
one side populated and nothing else arriving, is evicted by a sweep run
after tCreate plus the configured wait: the store shrinks from one resident
entry to zero and exactly one timeout emission is produced. -/
theorem timeout_emission (cfg : Config) (tCreate tNow : Int) (s : Span)
    (hexp : tCreate + cfg.Wait < tNow) :
    (onSpan cfg tCreate emptyState s).store.length = 1 ∧
    (sweep tNow (onSpan cfg tCreate emptyState s)).store.length = 0 ∧
    timeoutCount (sweep tNow (onSpan cfg tCreate emptyState s)).emissions = 1 := by
  rw [onSpan_empty]
  have he : (newHalfEdge cfg tCreate s).expiresAt = tCreate + cfg.Wait := by
    rw [newHalfEdge, mergeSide_expiresAt]
  have hnot : ¬ tNow ≤ (newHalfEdge cfg tCreate s).expiresAt := by
    rw [he]; omega
  have hlt : (newHalfEdge cfg tCreate s).expiresAt < tNow := by
    rw [he]; omega
  refine ⟨rfl, ?_, ?_⟩ <;>
    simp [sweep, timeoutCount, isTimeoutEviction, hnot, hlt]

/-- Witness for C3 at the concrete sample client span and sample
configuration. -/
theorem timeout_emission_witness :
    ((0 : Int) + sampleConfig.Wait < 11) ∧
    ((onSpan sampleConfig 0 emptyState sampleClientSpan).store.length = 1 ∧
      (sweep 11 (onSpan sampleConfig 0 emptyState sampleClientSpan)).store.length = 0 ∧
      timeoutCount
        (sweep 11 (onSpan sampleConfig 0 emptyState sampleClientSpan)).emissions = 1) :=
  ⟨by norm_num [sampleConfig],
    timeout_emission sampleConfig 0 11 sampleClientSpan (by norm_num [sampleConfig])⟩

/-- Lookup distributes over append when the first part misses. -/
theorem lookupEdge_append_none (l1 l2 : List (CorrelationKey × HalfEdge))
    (k : CorrelationKey) (h : lookupEdge l1 k = none) :
    lookupEdge (l1 ++ l2) k = lookupEdge l2 k := by
  induction l1 with
  | nil => simp
  | cons e rest ih =>
    rcases e with ⟨k2, h2⟩
    by_cases hk : k2 = k
    · simp [lookupEdge, hk] at h
    · simp only [lookupEdge, hk, if_false, List.cons_append, if_neg hk] at h ⊢
      exact ih h

/-- Removal never makes a missing key resident. -/
theorem lookupEdge_removeEdge_none (l : List (CorrelationKey × HalfEdge))
    (k k2 : CorrelationKey) (h : lookupEdge l k = none) :
    lookupEdge (removeEdge l k2) k = none := by
  induction l with
  | nil => simpa [removeEdge] using h
  | cons e rest ih =>
    rcases e with ⟨k3, h3⟩
    by_cases h3k : k3 = k
    · simp [lookupEdge, h3k] at h
    · simp only [lookupEdge, if_neg h3k] at h
      by_cases h32 : k3 = k2
      · simp only [removeEdge, if_pos h32]
        exact h
      · simp only [removeEdge, if_neg h32, lookupEdge, if_neg h3k]
        exact ih h

/-- Removing a resident key shrinks the store by exactly one entry. -/
theorem removeEdge_length (l : List (CorrelationKey × HalfEdge)) (k : CorrelationKey)
    (h : (lookupEdge l k).isSome = true) :
    (removeEdge l k).length + 1 = l.length := by
  induction l with
  | nil => simp [lookupEdge] at h
  | cons e rest ih =>
    rcases e with ⟨k2, h2⟩
    by_cases hk : k2 = k
    · simp [removeEdge, hk]
    · simp only [lookupEdge, if_neg hk] at h
      have := ih h
      simp only [removeEdge, if_neg hk, List.length_cons]
      omega

/-- The entry the governor picks for eviction is resident in the store. -/
theorem oldestEntry_mem (l : List (CorrelationKey × HalfEdge))
    (e : CorrelationKey × HalfEdge) (h : oldestEntry l = some e) : e ∈ l := by
  induction l generalizing e with
  | nil => simp [oldestEntry] at h
  | cons a rest ih =>
    simp only [oldestEntry] at h
    cases ho : oldestEntry rest with
    | none =>
      simp only [ho, Option.some.injEq] at h
      simp [← h]
    | some e2 =>
      simp only [ho] at h
      by_cases hlt : e2.2.expiresAt < a.2.expiresAt
      · rw [if_pos hlt] at h
        simp only [Option.some.injEq] at h
        exact List.mem_cons_of_mem a (h ▸ ih e2 ho)
      · rw [if_neg hlt] at h
        simp only [Option.some.injEq] at h
        simp [← h]

/-- A resident pair makes its key look up as present. -/
theorem mem_lookupEdge_isSome (l : List (CorrelationKey × HalfEdge))
    (k : CorrelationKey) (hd : HalfEdge) (h : (k, hd) ∈ l) :
    (lookupEdge l k).isSome = true := by
  induction l with
  | nil => simp at h
  | cons a rest ih =>
    rcases a with ⟨k2, h2⟩
    rcases List.mem_cons.mp h with heq | hmem
    · injection heq with hk hh
      simp [lookupEdge, hk]
    · by_cases hk : k2 = k
      · simp [lookupEdge, hk]
      · simp only [lookupEdge, if_neg hk]
        exact ih hmem

/-- A nonempty store always yields an eviction candidate. -/
theorem oldestEntry_isSome (l : List (CorrelationKey × HalfEdge)) (h : ¬ l = []) :
    (oldestEntry l).isSome = true := by
  cases l with
  | nil => exact absurd rfl h
  | cons a rest =>
    simp only [oldestEntry]
    cases ho : oldestEntry rest with
    | none => rfl
    | some e2 =>
      by_cases hlt : e2.2.expiresAt < a.2.expiresAt <;> simp [hlt]

/-- Capacity eviction counting distributes over append. -/
theorem evictionCount_append (l1 l2 : List Emission) :
    evictionCount (l1 ++ l2) = evictionCount l1 + evictionCount l2 := by
  simp [evictionCount, List.filter_append]

/-- One fresh insert under the capacity governor: the bound is preserved, the
count of residents plus capacity evictions grows by exactly one, and keys
that were absent and differ from the inserted one stay absent. -/
theorem onSpan_fresh_step (cfg : Config) (t : Int) (st : EngineState) (s : Span)
    (hM : 0 < cfg.MaxItems)
    (hfresh : lookupEdge st.store s.key = none)
    (hlen : (st.store.length : Int) ≤ cfg.MaxItems) :
    ((onSpan cfg t st s).store.length : Int) ≤ cfg.MaxItems ∧
    (onSpan cfg t st s).store.length + evictionCount (onSpan cfg t st s).emissions
      = st.store.length + evictionCount st.emissions + 1 ∧
    ∀ k : CorrelationKey, lookupEdge st.store k = none → ¬ k = s.key →
      lookupEdge (onSpan cfg t st s).store k = none := by
  have habsent : ∀ (l : List (CorrelationKey × HalfEdge)) (k : CorrelationKey),
      lookupEdge l k = none → ¬ k = s.key →
      lookupEdge (l ++ [(s.key, newHalfEdge cfg t s)]) k = none := by
    intro l k hl hk
    rw [lookupEdge_append_none l _ k hl]
    have hks : ¬ s.key = k := fun hh => hk hh.symm
    simp [lookupEdge, hks]
  simp only [onSpan, hfresh]
  by_cases hc : cfg.MaxItems ≤ (st.store.length : Int)
  · rw [if_pos hc]
    have hne : ¬ st.store = [] := by
      intro hnil
      rw [hnil] at hc
      simp at hc
      omega
    obtain ⟨old, ho⟩ := Option.isSome_iff_exists.mp (oldestEntry_isSome st.store hne)
    rw [ho]
    have hmem : old ∈ st.store := oldestEntry_mem st.store old ho
    have hsome : (lookupEdge st.store old.1).isSome = true := by
      exact mem_lookupEdge_isSome st.store old.1 old.2 (by simpa using hmem)
    have hrem := removeEdge_length st.store old.1 hsome
    refine ⟨?_, ?_, ?_⟩
    · simp only [List.length_append, List.length_cons, List.length_nil]
      omega
    · rw [evictionCount_append]
      simp only [List.length_append, List.length_cons, List.length_nil]
      have : evictionCount [Emission.incomplete old.2 EvictReason.capacity] = 1 := rfl
      omega
    · intro k hl hk
      exact habsent _ k (lookupEdge_removeEdge_none st.store k old.1 hl) hk
  · rw [if_neg hc]
    refine ⟨?_, ?_, ?_⟩
    · simp only [List.length_append, List.length_cons, List.length_nil]
      push_cast
      omega
    · simp only [List.length_append, List.length_cons, List.length_nil]
      omega
    · intro k hl hk
      exact habsent _ k hl hk

/-- Folding a pairwise-fresh, pairwise-distinct sequence of spans through the
engine keeps the store within capacity and makes residents plus capacity
evictions grow by exactly the number of spans. -/
theorem processAll_fresh_distinct (cfg : Config) (hM : 0 < cfg.MaxItems)
    (spans : List (Int × Span)) :
    ∀ st : EngineState,
      (∀ p ∈ spans, lookupEdge st.store p.2.key = none) →
      List.Pairwise (fun a b : Int × Span => ¬ a.2.key = b.2.key) spans →
      (st.store.length : Int) ≤ cfg.MaxItems →
      ((processAll cfg st spans).store.length : Int) ≤ cfg.MaxItems ∧
      (processAll cfg st spans).store.length
          + evictionCount (processAll cfg st spans).emissions
        = st.store.length + evictionCount st.emissions + spans.length := by
  induction spans with
  | nil =>
    intro st _ _ hlen
    exact ⟨hlen, by simp [processAll]⟩
  | cons p rest ih =>
    intro st hfresh hpair hlen
    rcases p with ⟨t, s⟩
    obtain ⟨hlen2, hcount, hkeep⟩ :=
      onSpan_fresh_step cfg t st s hM (hfresh (t, s) (by simp)) hlen
    obtain ⟨hhead, htail⟩ := List.pairwise_cons.mp hpair
    have hfresh2 : ∀ p2 ∈ rest, lookupEdge (onSpan cfg t st s).store p2.2.key = none := by
      intro p2 hp2
      exact hkeep p2.2.key (hfresh p2 (List.mem_cons_of_mem _ hp2))
        (fun he => hhead p2 hp2 he.symm)
    obtain ⟨ha, hb⟩ := ih (onSpan cfg t st s) hfresh2 htail hlen2
    refine ⟨by simpa [processAll] using ha, ?_⟩
    simp only [processAll, List.length_cons]
    omega

/-- C2: with a positive capacity, feeding any sequence of spans with pairwise
distinct keys into the empty engine never lets the store size exceed
MaxItems — at any prefix of the sequence — and the final count of residents
plus capacity eviction emissions equals the number of spans, so each insert
admitted beyond the bound corresponds to exactly one eviction emission. -/
theorem capacity_bound (cfg : Config) (spans : List (Int × Span))
    (hM : 0 < cfg.MaxItems)
    (hdist : List.Pairwise (fun a b : Int × Span => ¬ a.2.key = b.2.key) spans) :
    (∀ l1 l2 : List (Int × Span), spans = l1 ++ l2 →
        ((processAll cfg emptyState l1).store.length : Int) ≤ cfg.MaxItems) ∧
    (processAll cfg emptyState spans).store.length
        + evictionCount (processAll cfg emptyState spans).emissions = spans.length := by
  have hempty : ((emptyState.store.length : Int) ≤ cfg.MaxItems) := by
    simp [emptyState]
    omega
  constructor
  · intro l1 l2 hsplit
    have hd1 : List.Pairwise (fun a b : Int × Span => ¬ a.2.key = b.2.key) l1 := by
      rw [hsplit] at hdist
      exact hdist.sublist (List.sublist_append_left l1 l2)
    exact (processAll_fresh_distinct cfg hM l1 emptyState
      (fun p _ => rfl) hd1 hempty).1
  · have hmain := (processAll_fresh_distinct cfg hM spans emptyState
      (fun p _ => rfl) hdist hempty).2
    have h0 : emptyState.store.length = 0 := rfl
    have h1 : evictionCount emptyState.emissions = 0 := rfl
    omega

/-- Witness for C2 at two concrete spans with distinct keys under capacity
one. -/
theorem capacity_bound_witness :
    ((0 : Int) < sampleConfig.MaxItems ∧
      List.Pairwise (fun a b : Int × Span => ¬ a.2.key = b.2.key)
        [(0, sampleClientSpan), (1, sampleOtherSpan)]) ∧
    ((∀ l1 l2 : List (Int × Span),
        [(0, sampleClientSpan), (1, sampleOtherSpan)] = l1 ++ l2 →
        ((processAll sampleConfig emptyState l1).store.length : Int)
          ≤ sampleConfig.MaxItems) ∧
      (processAll sampleConfig emptyState
            [(0, sampleClientSpan), (1, sampleOtherSpan)]).store.length
          + evictionCount (processAll sampleConfig emptyState
            [(0, sampleClientSpan), (1, sampleOtherSpan)]).emissions
        = ([(0, sampleClientSpan), (1, sampleOtherSpan)] : List (Int × Span)).length) :=
  ⟨⟨by norm_num [sampleConfig], by decide⟩,
    capacity_bound sampleConfig [(0, sampleClientSpan), (1, sampleOtherSpan)]
      (by norm_num [sampleConfig]) (by decide)⟩

end ServiceGraph
